import Mathlib

/-!
Verification of the stacforge bulk-ingestion pipeline
(`src/tools/stacforge-functions/src/stacforge`).

Blob names, line contents and glob patterns are embedded as `List Char`
(Python `str`).  Fallible calls are embedded as `Except`; the outcome of a
remote attempt is `Except Nat α` where the error carries the HTTP status
code.  Every definition is translated from the corresponding Python
function, which is named in its doc comment.
-/

namespace Stacforge

/-- Python `str.startswith` on character lists (also the template test
`starts_with` in `engine/tests.py`). -/
def starts_with : List Char → List Char → Bool
  | _, [] => true
  | [], _ :: _ => false
  | c :: cs, p :: ps => p == c && starts_with cs ps

/-- Python `str.endswith` on character lists (also the template test
`ends_with` in `engine/tests.py`). -/
def ends_with (s suf : List Char) : Bool :=
  starts_with s.reverse suf.reverse

/-- Glob matching as performed by `StorageClient.list_blobs`
(`clients/storage_client.py`): the pattern is translated with
`fnmatch.translate` and anchored at both ends (`re.match` + `\Z`).
`fnmatch` is not path-aware, so `*` and `?` also match `/`.  The cited
patterns use no `[...]` character classes, so only `*`, `?` and literal
characters are embedded; a `*` (the regex fragment `.*`) matches when the
rest of the pattern matches some suffix of the text. -/
def globMatch : List Char → List Char → Bool
  | [], cs => cs.isEmpty
  | p :: ps, cs =>
    if p = '*' then
      cs.tails.any fun t => globMatch ps t
    else
      match cs with
      | [] => false
      | c :: cs' => if p = '?' then globMatch ps cs' else p == c && globMatch ps cs'

/-- The glob/prefix filter of `StorageClient.list_blobs`: keep a blob iff it
passes the service-side prefix filter (`name_starts_with`) and, when a
pattern is given, the translated glob regex matches its name. -/
def list_blobs_keep (pre pat : Option (List Char)) (name : List Char) : Bool :=
  (match pre with
   | none => true
   | some p => starts_with name p) &&
  (match pat with
   | none => true
   | some p => globMatch p name)

/-- Embedding of `StorageClient.list_blobs`: enumerate the container's blobs
(in service enumeration order), apply the prefix filter and the translated
glob, and return one URL `container_url ++ "/" ++ name` per surviving blob,
preserving enumeration order. -/
def list_blobs (container_url : List Char) (blobs : List (List Char))
    (pre pat : Option (List Char)) : List (List Char) :=
  (blobs.filter (list_blobs_keep pre pat)).map fun b => container_url ++ '/' :: b

/-- Constant `RETRIES` of `clients/storage_client.py`
(passed to tenacity `stop_after_attempt`, so it bounds total attempts). -/
def RETRIES : Nat := 3

/-- Constant `WAIT_SECONDS` of `clients/storage_client.py`
(tenacity `wait_fixed`). -/
def WAIT_SECONDS : Nat := 2

/-- The retry predicate of `retry_transient_errors`
(`clients/storage_client.py`): an `HttpResponseError` is transient iff its
status is 408, 429 or any 5xx. -/
def is_transient_status (status : Nat) : Bool :=
  500 ≤ status || status == 408 || status == 429

/-- Tenacity loop body for `retry_transient_errors`: `attempt n` is the
outcome of the n-th call of the wrapped operation (1-based); a transient
error is retried while fewer than `remaining` more attempts would exceed the
`stop_after_attempt` bound; `reraise=True` surfaces the final error.  The
result is paired with the number of attempts performed. -/
def retry_go (α : Type) (attempt : Nat → Except Nat α) :
    Nat → Nat → Except Nat α × Nat
  | attempt_number, 0 => (attempt attempt_number, attempt_number)
  | attempt_number, 1 => (attempt attempt_number, attempt_number)
  | attempt_number, r + 2 =>
    match attempt attempt_number with
    | .ok a => (.ok a, attempt_number)
    | .error status =>
      if is_transient_status status then
        retry_go α attempt (attempt_number + 1) (r + 1)
      else
        (.error status, attempt_number)

/-- Embedding of `retry_transient_errors` (`clients/storage_client.py`):
run the wrapped operation under tenacity with `stop_after_attempt RETRIES`,
`wait_fixed WAIT_SECONDS` and the transient-status retry predicate. -/
def retry_transient_errors (α : Type) (attempt : Nat → Except Nat α) :
    Except Nat α × Nat :=
  retry_go α attempt 1 RETRIES

/-- Enumeration `CrawlingType` of `activities/crawling/models.py`. -/
inductive CrawlingType
  | FILE
  | INDEX
deriving DecidableEq, Repr

/-- Input dataclass `StaticCatalogIngestionOrchestrationInfo` of
`orchestrations/models.py` (defaults as in the source). -/
structure StaticCatalogIngestionOrchestrationInfo where
  crawling_type : CrawlingType
  source_storage_account_name : String
  source_container_name : String
  template_url : String
  target_collection_id : String
  pattern : Option String := none
  index_file_path : Option String := none
  index_file_is_ndjson : Option Bool := some false
  index_file_ignore_lines_starting_with : Option String := some "#"
  target_geocatalog_url : Option String := none
  validate : Bool := false
deriving DecidableEq, Repr

/-- Embedding of
`StaticCatalogIngestionOrchestrationInfo.check_crawling_options`
(`orchestrations/models.py`): raising `ValueError` becomes `Except.error`
with the source's message. -/
def check_crawling_options (self : StaticCatalogIngestionOrchestrationInfo) :
    Except String StaticCatalogIngestionOrchestrationInfo :=
  if self.crawling_type = CrawlingType.INDEX then
    if self.index_file_path = none then
      .error "index_file must be provided for index crawling"
    else if self.pattern ≠ none then
      .error "pattern must not be provided for index crawling"
    else
      .ok self
  else if self.index_file_path ≠ none then
    .error "index_file must not be provided for non-index crawling"
  else
    .ok self

/-- Activity invocations scheduled by the orchestration through
`context.call_activity`, in scheduling order.  `σ` is the scene payload
type (a URL string for the file crawler, a parsed record for an NDJSON
index). -/
inductive ScheduledActivity (σ : Type)
  | crawl (activity_name : String)
  | transform (scene : σ) (template_url items_path : String) (validate : Bool)
  | create_collection (base_dir : String)
deriving DecidableEq, Repr

/-- The value returned by the orchestration generator: one constructor per
`return` site of `_geotemplate_bulk_transform`. -/
inductive OrchestrationOutput
  | emptyResult
  | warningResult (warning : String)
  | finishedResult (collectionUrl : String)
      (totalItems successCount failedCount : Nat)
  | errorResult (error : String)
deriving DecidableEq, Repr

/-- Observable outcome of one orchestration run: its returned output, the
activities it scheduled (in order) and its final custom status. -/
structure OrchestrationRun (σ : Type) where
  output : OrchestrationOutput
  scheduled : List (ScheduledActivity σ)
  custom_status : String
deriving DecidableEq, Repr

/-- Activity name `FILE_CRAWLER_ACTIVITY_NAME`. -/
def FILE_CRAWLER_ACTIVITY_NAME : String := "file_crawler"

/-- Activity name `INDEX_CRAWLER_ACTIVITY_NAME`. -/
def INDEX_CRAWLER_ACTIVITY_NAME : String := "index_crawler"

/-- Embedding of the orchestration `_geotemplate_bulk_transform`
(`orchestrations/geotemplate_bulk_transform.py`).  The durable context is
replaced by explicit parameters: `input` is the parsed orchestration input
(`none` when `context.get_input()` is `None`), `crawl_result` is the scene
list returned by the crawler activity, `transform_result` gives each
fan-out activity's boolean outcome (`task_all` preserves task order, one
response per scene), and `create_collection_result` is the URL returned by
the `create_collection` activity.  The surrounding `try/except` turns any
raised error into an `errorResult` with status `Failed`; the error
messages of the embedded checks are single-line with no trailing blanks,
so `str(e).split` and `rstrip` leave them unchanged. -/
def geotemplate_bulk_transform (σ : Type)
    (input : Option StaticCatalogIngestionOrchestrationInfo)
    (instance_id : String)
    (crawl_result : List σ)
    (transform_result : σ → Bool)
    (create_collection_result : String) : OrchestrationRun σ :=
  match input with
  | none => ⟨.errorResult "No input provided", [], "Failed"⟩
  | some info =>
    match check_crawling_options info with
    | .error e => ⟨.errorResult e, [], "Failed"⟩
    | .ok info =>
      let crawler_name :=
        if info.crawling_type = CrawlingType.FILE then FILE_CRAWLER_ACTIVITY_NAME
        else INDEX_CRAWLER_ACTIVITY_NAME
      let scenes := crawl_result
      if scenes.length = 0 then
        ⟨.emptyResult, [.crawl crawler_name], "Finished"⟩
      else
        let items_path := instance_id ++ "/items"
        let tasks := scenes.map fun s =>
          ScheduledActivity.transform s info.template_url items_path info.validate
        let responses := scenes.map transform_result
        let failed_count := responses.count false
        let success_count := responses.count true
        if success_count = 0 then
          ⟨.warningResult "No scenes transformed",
            .crawl crawler_name :: tasks,
            if failed_count = 0 then "Finished" else "FinishedWithErrors"⟩
        else
          ⟨.finishedResult create_collection_result scenes.length
              success_count failed_count,
            .crawl crawler_name :: tasks ++ [.create_collection instance_id],
            if failed_count = 0 then "Finished" else "FinishedWithErrors"⟩

/-- The fallible steps performed by `_geotemplate_transform`
(`activities/transformation/geotemplate_transform.py`), abstracted over the
template type `τ` and the STAC item type `ι`: template retrieval
(`Environment.get_geotemplate_from_storage`, which loads and compiles the
template), `render_stac` (rendering, STAC construction and optional
validation), `to_dict` composed with `json.dumps` (pure serialization), and
the blob upload, which returns the blob URL.  Each `Except.error` stands
for a raised exception. -/
structure TransformSteps (τ ι : Type) where
  get_geotemplate : Except String τ
  render_stac : τ → Except String ι
  to_dict : ι → String
  upload_blob : String → String → Except String String

/-- Embedding of `_geotemplate_transform`: run the steps in source order;
the outer `try/except` catches every exception and returns `False`,
otherwise the serialized item is uploaded to
`items_path ++ "/" ++ invocation_id ++ ".json"` and the activity returns
`True`.  The second component records the successful uploads as
`(blob name, data)` pairs. -/
def geotemplate_transform (τ ι : Type) (steps : TransformSteps τ ι)
    (items_path invocation_id : String) : Bool × List (String × String) :=
  match steps.get_geotemplate with
  | .error _ => (false, [])
  | .ok template =>
    match steps.render_stac template with
    | .error _ => (false, [])
    | .ok stac_item =>
      let item_path := items_path ++ "/" ++ invocation_id ++ ".json"
      match steps.upload_blob item_path (steps.to_dict stac_item) with
      | .error _ => (false, [])
      | .ok _ => (true, [(item_path, steps.to_dict stac_item)])

/-- One `rel` link of the collection document built by `_create_collection`
(`activities/transformation/create_collection.py`). -/
structure CollectionLink where
  rel : String
  href : List Char
  type : String
deriving DecidableEq, Repr

/-- The collection document built by `_create_collection`: the static
fields are literals in the source; `links` holds one item link per listed
blob. -/
structure Collection where
  stac_version : String := "1.0.0"
  type : String := "Collection"
  id : String := "temporary_collection"
  title : String := "Temporary collection"
  description : String := "Temporary collection for bulk import"
  license : String := "other"
  links : List CollectionLink := []

/-- Embedding of `_create_collection`: list the blobs under
`base_dir ++ "/items"` matching `*.json` (via `StorageClient.list_blobs`
over the export container's enumeration `store`), and build the collection
whose `links` array has exactly one
`rel="item"`, `type="application/json"` entry per listed URL, in listing
order.  Returns the collection and the name the collection blob is
uploaded to. -/
def create_collection (container_url : List Char) (store : List (List Char))
    (base_dir : List Char) : Collection × List Char :=
  let items := list_blobs container_url store
    (some (base_dir ++ "/items".toList)) (some "*.json".toList)
  ({ links := items.map fun item_url =>
      { rel := "item", href := item_url, type := "application/json" } },
    base_dir ++ "/collection.json".toList)

/-- Blob name written by a successful `_geotemplate_transform` of one run:
`f"{context.instance_id}/items"` joined with `f"{invocation_id}.json"`. -/
def item_blob_name (instance_id invocation_id : List Char) : List Char :=
  instance_id ++ "/items/".toList ++ invocation_id ++ ".json".toList

/-- Blob names uploaded by the fan-out of one orchestration run:
`results` pairs each transform activity's invocation id with its boolean
outcome; exactly the successful activities upload their item. -/
def run_uploads (instance_id : List Char) (results : List (List Char × Bool)) :
    List (List Char) :=
  (results.filter fun r => r.2).map fun r => item_blob_name instance_id r.1

/-- The `connectionInfo` object of an ingestion-source detail response
(`GET /api/ingestion-sources/{id}`): `expiration` is an optional field,
absent for policy-based credentials. -/
structure ConnectionInfo where
  containerUrl : String
  sasToken : String
  expiration : Option String
deriving DecidableEq, Repr

/-- One ingestion-source detail record as consumed by
`GeoCatalogClient.get_ingestion_sources`. -/
structure IngestionSourceRecord where
  id : String
  sourceType : String
  connectionInfo : ConnectionInfo
deriving DecidableEq, Repr

/-- Value stored per container URL by `get_ingestion_sources`. -/
structure SourceEntry where
  id : String
  expiration : String
deriving DecidableEq, Repr

/-- Python dict assignment `d[k] = v` on an association list: replace the
binding for `k` in place, or append a new one. -/
def set_key (V : Type) : List (String × V) → String → V → List (String × V)
  | [], k, v => [(k, v)]
  | (k', v') :: rest, k, v =>
    if k' = k then (k, v) :: rest else (k', v') :: set_key V rest k v

/-- Python dict lookup `d.get(k)` on an association list. -/
def lookup_key (V : Type) : List (String × V) → String → Option V
  | [], _ => none
  | (k', v') :: rest, k => if k' = k then some v' else lookup_key V rest k

/-- Loop body of `GeoCatalogClient.get_ingestion_sources`
(`clients/geocatalog_client.py`, lines 220-244): for each listed source the
detail record is fetched and
`ingestion_source["connectionInfo"]["expiration"]` is read *before* the
`"expiration" in connection_info` membership test, so a record without an
`expiration` field raises `KeyError` (embedded as `Except.error`) instead
of reaching the skip branch. -/
def get_ingestion_sources_go :
    List IngestionSourceRecord → List (String × SourceEntry) →
    Except String (List (String × SourceEntry))
  | [], acc => .ok acc
  | r :: rest, acc =>
    let container_url := r.connectionInfo.containerUrl
    match r.connectionInfo.expiration with
    | none => .error "KeyError: expiration"
    | some sas_expiration =>
      if r.sourceType = "SasToken" then
        if r.connectionInfo.expiration.isSome then
          get_ingestion_sources_go rest
            (set_key SourceEntry acc container_url ⟨r.id, sas_expiration⟩)
        else
          get_ingestion_sources_go rest acc
      else
        get_ingestion_sources_go rest acc

/-- Embedding of `GeoCatalogClient.get_ingestion_sources`: fold the fetched
detail records into the `container_url ↦ {id, expiration}` map. -/
def get_ingestion_sources (records : List IngestionSourceRecord) :
    Except String (List (String × SourceEntry)) :=
  get_ingestion_sources_go records []

/-- Default of env var `MIN_SAS_TOKEN_EXPIRATION_HOURS`
(`clients/geocatalog_client.py`). -/
def MIN_SAS_TOKEN_EXPIRATION_HOURS : Int := 12

/-- Default of env var `DEFAULT_SAS_TOKEN_EXPIRATION_HOURS`
(`clients/geocatalog_client.py`). -/
def DEFAULT_SAS_TOKEN_EXPIRATION_HOURS : Int := 24

/-- The existing ingestion source for the target container, as found in the
`get_ingestion_sources` map: its id and the parsed `expiration` timestamp
(seconds). -/
structure IngestionSourceState where
  id : String
  expiration : Int
deriving DecidableEq, Repr

/-- Catalog mutations issued by `create_or_update_ingestion_source`: a POST
creating a source, or a PUT updating one, each carrying the freshly minted
SAS credential's expiration timestamp (seconds). -/
inductive IngestionSourceAction
  | create (container_url : String) (sas_expiration : Int)
  | update (id : String) (container_url : String) (sas_expiration : Int)
deriving DecidableEq, Repr

/-- Embedding of `GeoCatalogClient.create_or_update_ingestion_source`
(`clients/geocatalog_client.py`, lines 306-375).  Time is in seconds;
`now` stands for `datetime.now(UTC)` (the source reads the clock again
when minting the token, a sub-second difference collapsed here).
`existing` is `ingestion_sources.get(container_url)`.  With no existing
source, one create is issued with expiration `now + default_hours`.  With
an existing source, the source updates iff
`now + min_hours*3600 >= expiration`, i.e. iff
`expiration <= now + min_hours*3600`; otherwise it is reused with no
catalog mutation. -/
def create_or_update_ingestion_source (now min_hours default_hours : Int)
    (existing : Option IngestionSourceState) (container_url : String) :
    List IngestionSourceAction :=
  match existing with
  | none => [.create container_url (now + default_hours * 3600)]
  | some s =>
    if s.expiration ≤ now + min_hours * 3600 then
      [.update s.id container_url (now + default_hours * 3600)]
    else
      []

/-- Python `str.splitlines` restricted to the line boundaries `\n`, `\r\n`
and `\r` (the index files are plain text/NDJSON): the accumulator holds
the current line reversed; a terminal line break produces no trailing
empty line. -/
def py_splitlines_go : List Char → List Char → List (List Char)
  | [], acc => [acc.reverse]
  | c :: rest, acc =>
    if c = '\n' then
      acc.reverse :: (match rest with
        | [] => []
        | r :: rs => py_splitlines_go (r :: rs) [])
    else if c = '\r' then
      match rest with
      | '\n' :: rest2 =>
        acc.reverse :: (match rest2 with
          | [] => []
          | r :: rs => py_splitlines_go (r :: rs) [])
      | [] => [acc.reverse]
      | r :: rs => acc.reverse :: py_splitlines_go (r :: rs) []
    else
      py_splitlines_go rest (c :: acc)

/-- Python `str.splitlines` (on `\n`, `\r\n`, `\r`): the empty string has
no lines. -/
def py_splitlines : List Char → List (List Char)
  | [] => []
  | c :: rest => py_splitlines_go (c :: rest) []

/-- Left-to-right line parsing of the NDJSON comprehension
`[json.loads(line) for line in lines]`: the first line `json.loads`
rejects aborts the comprehension (a raised `JSONDecodeError`). -/
def parse_all (J : Type) (parse_json : List Char → Option J) :
    List (List Char) → Option (List J)
  | [] => some []
  | l :: ls =>
    match parse_json l with
    | none => none
    | some j =>
      match parse_all J parse_json ls with
      | none => none
      | some js => some (j :: js)

/-- Embedding of `_index_crawler` (`activities/crawling/index_crawler.py`).
`download` is the outcome of `StorageClient.download_blob` for the index
blob, already UTF-8 decoded; `parse_json` abstracts `json.loads` on one
line (`none` = raise).  The `try/except` wraps every step, so a download
failure or a line parse failure raises
`CrawlingError("Error crawling index")`. -/
def index_crawler (J : Type) (download : Except String (List Char))
    (is_ndjson : Bool) (ignore_lines_starting_with : Option (List Char))
    (parse_json : List Char → Option J) :
    Except String (List (List Char) ⊕ List J) :=
  match download with
  | .error _ => .error "Error crawling index"
  | .ok bytes =>
    let lines := py_splitlines bytes
    let lines :=
      match ignore_lines_starting_with with
      | some p =>
        if p ≠ [] then lines.filter (fun line => !starts_with line p) else lines
      | none => lines
    if is_ndjson then
      match parse_all J parse_json lines with
      | none => .error "Error crawling index"
      | some objects => .ok (.inr objects)
    else
      .ok (.inl lines)

/-- The four process-wide registries of the template engine:
`GeoTemplateFilters` (`engine/filters.py`), `GeoTemplateFunctions`
(`engine/functions.py`), `GeoTemplateTests` (`engine/tests.py`) and
`GeoTemplateGlobals` (`engine/globals.py`) — module-level dicts shared by
every `Environment`.  `V` abstracts the registered callables/values. -/
structure GlobalRegistries (V : Type) where
  filters : List (String × V)
  functions : List (String × V)
  tests : List (String × V)
  globals : List (String × V)
deriving Repr

/-- The per-instance state of one `Environment` (`engine/environment.py`):
the wrapped jinja `SandboxedEnvironment`'s `filters`, `globals` and
`tests` dicts.  `add_function` and `add_global_variable` both write to the
jinja `globals` dict. -/
structure EnvironmentState (V : Type) where
  filters : List (String × V)
  globals : List (String × V)
  tests : List (String × V)
deriving Repr

/-- Embedding of `Environment.add_filter`: writes the process-wide
`GeoTemplateFilters` registry *and* the instance's jinja `filters` dict. -/
def add_filter (V : Type) (g : GlobalRegistries V) (e : EnvironmentState V)
    (name : String) (f : V) : GlobalRegistries V × EnvironmentState V :=
  ({ g with filters := set_key V g.filters name f },
   { e with filters := set_key V e.filters name f })

/-- Embedding of `Environment.add_function`: writes the process-wide
`GeoTemplateFunctions` registry and the instance's jinja `globals` dict. -/
def add_function (V : Type) (g : GlobalRegistries V) (e : EnvironmentState V)
    (name : String) (f : V) : GlobalRegistries V × EnvironmentState V :=
  ({ g with functions := set_key V g.functions name f },
   { e with globals := set_key V e.globals name f })

/-- Embedding of `Environment.add_test`: writes the process-wide
`GeoTemplateTests` registry and the instance's jinja `tests` dict. -/
def add_test (V : Type) (g : GlobalRegistries V) (e : EnvironmentState V)
    (name : String) (f : V) : GlobalRegistries V × EnvironmentState V :=
  ({ g with tests := set_key V g.tests name f },
   { e with tests := set_key V e.tests name f })

/-- Embedding of `Environment.add_global_variable`: writes the process-wide
`GeoTemplateGlobals` registry and the instance's jinja `globals` dict. -/
def add_global_variable (V : Type) (g : GlobalRegistries V)
    (e : EnvironmentState V) (name : String) (v : V) :
    GlobalRegistries V × EnvironmentState V :=
  ({ g with globals := set_key V g.globals name v },
   { e with globals := set_key V e.globals name v })

/-- One registration loop of `Environment.__init__`: iterate the pairs of a
registry (Python iterates `dict.items()` of the registry as it was at loop
start; the `add_*` writes re-assign existing keys, which is permitted
mid-iteration and leaves the iteration sequence unchanged), performing one
`add_*` step per pair.  The step is abstracted so the same loop serves all
four registries. -/
def init_fold (V : Type)
    (step : GlobalRegistries V → EnvironmentState V → String → V →
      GlobalRegistries V × EnvironmentState V) :
    List (String × V) → GlobalRegistries V × EnvironmentState V →
    GlobalRegistries V × EnvironmentState V
  | [], st => st
  | (k, v) :: rest, st => init_fold V step rest (step st.1 st.2 k v)

/-- Embedding of `Environment.__init__`: starting from a fresh jinja
environment (empty dicts), inject the filters, functions, tests and global
variables from the process-wide registries via the four `add_*` methods.
Returns the registries as left by the loops together with the new
instance's state. -/
def environment_init (V : Type) (g : GlobalRegistries V) :
    GlobalRegistries V × EnvironmentState V :=
  let st0 : GlobalRegistries V × EnvironmentState V := (g, ⟨[], [], []⟩)
  let st1 := init_fold V (add_filter V) g.filters st0
  let st2 := init_fold V (add_function V) g.functions st1
  let st3 := init_fold V (add_test V) g.tests st2
  init_fold V (add_global_variable V) g.globals st3

/-- In any list of booleans the `True`s and the `False`s partition the
list. -/
theorem count_true_add_count_false (l : List Bool) :
    l.count true + l.count false = l.length := by
  induction l with
  | nil => rfl
  | cons b t ih =>
    cases b <;> simp [List.count_cons] <;> omega

/-- Spec-side crawling-mode violation: `crawling_type=INDEX` with a missing
`index_file_path` or a present `pattern`, or a non-INDEX `crawling_type`
with a present `index_file_path`. -/
def crawling_options_violation
    (info : StaticCatalogIngestionOrchestrationInfo) : Prop :=
  (info.crawling_type = CrawlingType.INDEX ∧
    (info.index_file_path = none ∨ info.pattern ≠ none)) ∨
  (info.crawling_type ≠ CrawlingType.INDEX ∧ info.index_file_path ≠ none)

instance (info : StaticCatalogIngestionOrchestrationInfo) :
    Decidable (crawling_options_violation info) := by
  unfold crawling_options_violation
  infer_instance

/-- C1: every orchestration run that returns the final result object
satisfies `successCount + failedCount = totalItems`, where `totalItems` is
the number of crawled scenes and the counts tally the `True`/`False`
responses of the fan-out. -/
theorem fanout_totals (σ : Type)
    (input : Option StaticCatalogIngestionOrchestrationInfo)
    (instance_id : String) (crawl_result : List σ)
    (transform_result : σ → Bool) (create_collection_result url : String)
    (t s f : Nat) (scheduled : List (ScheduledActivity σ)) (status : String)
    (h : geotemplate_bulk_transform σ input instance_id crawl_result
      transform_result create_collection_result =
      ⟨.finishedResult url t s f, scheduled, status⟩) :
    s + f = t := by
  unfold geotemplate_bulk_transform at h
  match input with
  | none => simp at h
  | some info =>
    simp only at h
    match hc : check_crawling_options info with
    | .error e => rw [hc] at h; simp at h
    | .ok info2 =>
      rw [hc] at h
      simp only at h
      split at h
      · simp at h
      · split at h
        · simp at h
        · rename_i hs
          have h1 := congrArg OrchestrationRun.output h
          simp only at h1
          cases h1
          have := count_true_add_count_false (crawl_result.map transform_result)
          rw [List.length_map] at this
          exact this

/-- Witness for `fanout_totals` at a concrete single-scene run. -/
theorem fanout_totals_witness : (1 : Nat) + 0 = 1 :=
  fanout_totals Unit
    (some { crawling_type := .FILE,
            source_storage_account_name := "acct",
            source_container_name := "cont",
            template_url := "https://tpl",
            target_collection_id := "c1" })
    "inst" [()] (fun _ => true) "https://coll" "https://coll" 1 1 0
    [.crawl FILE_CRAWLER_ACTIVITY_NAME,
     .transform () "https://tpl" "inst/items" false,
     .create_collection "inst"] "Finished" (by rfl)

/-- C2: `check_crawling_options` raises exactly on a crawling-mode
violation, and when it raises, the orchestration returns the error output
having scheduled no crawler, transform or collection activity. -/
theorem crawling_mode_precondition
    (info : StaticCatalogIngestionOrchestrationInfo) (σ : Type)
    (instance_id : String) (crawl_result : List σ)
    (transform_result : σ → Bool) (create_collection_result : String) :
    ((∃ e, check_crawling_options info = .error e) ↔
      crawling_options_violation info)
    ∧ (∀ e, check_crawling_options info = .error e →
        geotemplate_bulk_transform σ (some info) instance_id crawl_result
          transform_result create_collection_result =
          ⟨.errorResult e, [], "Failed"⟩) := by
  constructor
  · unfold check_crawling_options crawling_options_violation
    constructor
    · rintro ⟨e, he⟩
      split at he
      · rename_i hidx
        split at he
        · exact Or.inl ⟨hidx, Or.inl (by assumption)⟩
        · split at he
          · exact Or.inl ⟨hidx, Or.inr (by assumption)⟩
          · exact absurd he (by simp)
      · rename_i hidx
        split at he
        · exact Or.inr ⟨hidx, by assumption⟩
        · exact absurd he (by simp)
    · intro hviol
      rcases hviol with ⟨hidx, hcase⟩ | ⟨hidx, hfile⟩
      · rw [if_pos hidx]
        rcases hcase with hnone | hpat
        · exact ⟨_, by rw [if_pos hnone]⟩
        · by_cases hnone : info.index_file_path = none
          · exact ⟨_, by rw [if_pos hnone]⟩
          · exact ⟨_, by rw [if_neg hnone, if_pos hpat]⟩
      · rw [if_neg hidx, if_pos hfile]
        exact ⟨_, rfl⟩
  · intro e he
    simp only [geotemplate_bulk_transform, he]

/-- Witness for `crawling_mode_precondition`: an INDEX input without an
index file is rejected before anything is scheduled. -/
theorem crawling_mode_precondition_witness :
    geotemplate_bulk_transform Unit
      (some { crawling_type := .INDEX,
              source_storage_account_name := "acct",
              source_container_name := "cont",
              template_url := "https://tpl",
              target_collection_id := "c1" })
      "inst" [] (fun _ => true) "https://coll" =
      ⟨.errorResult "index_file must be provided for index crawling", [],
        "Failed"⟩ :=
  (crawling_mode_precondition
    { crawling_type := .INDEX,
      source_storage_account_name := "acct",
      source_container_name := "cont",
      template_url := "https://tpl",
      target_collection_id := "c1" }
    Unit "inst" [] (fun _ => true) "https://coll").2
    "index_file must be provided for index crawling" (by rfl)

/-- C3: the transform activity always returns a boolean (the embedding is
a total function, mirroring the catch-all `except` that converts every
raised exception into `False`); it returns `True` exactly when template
retrieval, rendering/validation and the upload all succeed, in which case
it uploaded the serialized item to
`items_path ++ "/" ++ invocation_id ++ ".json"`, and on failure it
uploaded nothing. -/
theorem transform_scene_contract (τ ι : Type) (steps : TransformSteps τ ι)
    (items_path invocation_id : String) :
    ((geotemplate_transform τ ι steps items_path invocation_id).1 = true ↔
      ∃ t, steps.get_geotemplate = .ok t ∧
        ∃ i, steps.render_stac t = .ok i ∧
          ∃ u, steps.upload_blob
            (items_path ++ "/" ++ invocation_id ++ ".json")
            (steps.to_dict i) = .ok u)
    ∧ (∀ t i, steps.get_geotemplate = .ok t → steps.render_stac t = .ok i →
        (geotemplate_transform τ ι steps items_path invocation_id).1 = true →
        (geotemplate_transform τ ι steps items_path invocation_id).2 =
          [(items_path ++ "/" ++ invocation_id ++ ".json", steps.to_dict i)])
    ∧ ((geotemplate_transform τ ι steps items_path invocation_id).1 = false →
        (geotemplate_transform τ ι steps items_path invocation_id).2 = []) := by
  rcases hg : steps.get_geotemplate with e | t0
  · simp [geotemplate_transform, hg]
  · rcases hr : steps.render_stac t0 with e | i0
    · simp [geotemplate_transform, hg, hr]
    · rcases hu : steps.upload_blob
          (items_path ++ "/" ++ invocation_id ++ ".json") (steps.to_dict i0)
        with e | u0
      · simp [geotemplate_transform, hg, hr, hu]
      · simp only [geotemplate_transform, hg, hr, hu]
        refine ⟨⟨fun _ => ⟨t0, rfl, i0, hr, u0, hu⟩, fun _ => trivial⟩, ?_, by simp⟩
        intro t i ht hi _
        obtain rfl : t0 = t := by injection ht
        rw [hr] at hi
        obtain rfl : i0 = i := by injection hi
        rfl

/-- Witness for `transform_scene_contract`: with all steps succeeding the
activity returns `True` and records the single item upload. -/
theorem transform_scene_contract_witness :
    (geotemplate_transform Unit Unit
      { get_geotemplate := .ok (),
        render_stac := fun _ => .ok (),
        to_dict := fun _ => "item-json",
        upload_blob := fun _ _ => .ok "https://url" }
      "inst/items" "inv-1").2 = [("inst/items/inv-1.json", "item-json")] :=
  (transform_scene_contract Unit Unit
    { get_geotemplate := .ok (),
      render_stac := fun _ => .ok (),
      to_dict := fun _ => "item-json",
      upload_blob := fun _ _ => .ok "https://url" }
    "inst/items" "inv-1").2.1 () () rfl rfl rfl

/-- Attempt outcomes of a gateway whose successive calls yield 408, 429,
500, 500 and then 200 (the success payload is irrelevant). -/
def attempts_408_429_500_500_200 : Nat → Except Nat Unit := fun n =>
  if n = 1 then .error 408
  else if n = 2 then .error 429
  else if n = 3 then .error 500
  else if n = 4 then .error 500
  else .ok ()

/-- Attempt outcomes of a gateway that always yields 400. -/
def attempts_400 : Nat → Except Nat Unit := fun _ => .error 400

/-- Attempt outcomes of a gateway yielding 408, 429 and then 200. -/
def attempts_408_429_200 : Nat → Except Nat Unit := fun n =>
  if n = 1 then .error 408
  else if n = 2 then .error 429
  else .ok ()

/-- Characterization of the tenacity loop: with at least one attempt
allowed, the loop starting at attempt `start` with `remaining` allowed
attempts stops within the window, returns the outcome of the attempt it
stopped at, retried only transient errors before that, and stops early
only on success or a non-transient error. -/
theorem retry_go_spec (α : Type) (attempt : Nat → Except Nat α) :
    ∀ remaining start, 1 ≤ remaining →
    start ≤ (retry_go α attempt start remaining).2 ∧
    (retry_go α attempt start remaining).2 + 1 ≤ start + remaining ∧
    (retry_go α attempt start remaining).1 =
      attempt (retry_go α attempt start remaining).2 ∧
    (∀ m, start ≤ m → m < (retry_go α attempt start remaining).2 →
      ∃ s, attempt m = .error s ∧ is_transient_status s = true) ∧
    ((retry_go α attempt start remaining).2 + 1 < start + remaining →
      ∀ s, (retry_go α attempt start remaining).1 = .error s →
        is_transient_status s = false) := by
  intro remaining
  induction remaining using Nat.strong_induction_on with
  | _ remaining ih =>
    intro start hrem
    match remaining, hrem with
    | 1, _ =>
      simp only [retry_go]
      refine ⟨Nat.le_refl _, by omega, trivial, ?_, ?_⟩
      · intro m h1 h2
        omega
      · intro h
        omega
    | (r + 2), _ =>
      rcases hA : attempt start with s | a
      · simp only [retry_go, hA]
        by_cases htr : is_transient_status s = true
        · rw [if_pos htr]
          have hlt : r + 1 < r + 2 := by omega
          obtain ⟨ih1, ih2, ih3, ih4, ih5⟩ := ih (r + 1) hlt (start + 1) (by omega)
          refine ⟨by omega, by omega, ih3, ?_, ?_⟩
          · intro m h1 h2
            rcases Nat.eq_or_lt_of_le h1 with rfl | hgt
            · exact ⟨s, hA, htr⟩
            · exact ih4 m (by omega) h2
          · intro hearly s' hs'
            exact ih5 (by omega) s' hs'
        · rw [if_neg htr]
          refine ⟨Nat.le_refl _, by omega, hA.symm, ?_, ?_⟩
          · intro m h1 h2
            omega
          · intro _ s' hs'
            cases hs'
            simpa using htr
      · simp only [retry_go, hA]
        refine ⟨Nat.le_refl _, by omega, trivial, ?_, ?_⟩
        · intro m h1 h2
          omega
        · intro _ s hs
          simp at hs

/-- C4 counterexample: the gateway whose attempts yield 408, 429, 500,
500, 200 does not complete successfully in 4 attempts — the
`stop_after_attempt RETRIES` bound (3 total attempts) makes the third
attempt's 500 surface after 3 attempts. -/
theorem retry_envelope_counterexample :
    retry_transient_errors Unit attempts_408_429_500_500_200 =
      (.error 500, 3) ∧
    retry_transient_errors Unit attempts_408_429_500_500_200 ≠
      (.ok (), 4) := by
  constructor
  · rfl
  · intro h
    have : (3 : Nat) = 4 := congrArg Prod.snd h
    omega

/-- C4 (amended): a transient failure (status 408, 429 or any 5xx) is
retried with a fixed 2-second wait up to a total of `RETRIES = 3`
attempts, after which the error surfaces; a non-transient failure is never
retried, so on a first-attempt 400 exactly one attempt is made; the
gateway yielding 408, 429, 200 completes successfully in exactly 3
attempts, while the one yielding 408, 429, 500, 500, 200 surfaces the
error 500 after exactly 3 attempts. -/
theorem retry_envelope_amended (α : Type) (attempt : Nat → Except Nat α) :
    (1 ≤ (retry_transient_errors α attempt).2 ∧
     (retry_transient_errors α attempt).2 ≤ RETRIES ∧
     (retry_transient_errors α attempt).1 =
       attempt (retry_transient_errors α attempt).2 ∧
     (∀ m, 1 ≤ m → m < (retry_transient_errors α attempt).2 →
       ∃ s, attempt m = .error s ∧ is_transient_status s = true) ∧
     ((retry_transient_errors α attempt).2 < RETRIES →
       ∀ s, (retry_transient_errors α attempt).1 = .error s →
         is_transient_status s = false) ∧
     WAIT_SECONDS = 2)
    ∧ retry_transient_errors Unit attempts_400 = (.error 400, 1)
    ∧ retry_transient_errors Unit attempts_408_429_200 = (.ok (), 3)
    ∧ retry_transient_errors Unit attempts_408_429_500_500_200 =
        (.error 500, 3) := by
  unfold retry_transient_errors
  obtain ⟨h1, h2, h3, h4, h5⟩ :=
    retry_go_spec α attempt RETRIES 1 (by decide)
  refine ⟨⟨h1, ?_, h3, fun m hm hlt => h4 m hm hlt, ?_, rfl⟩, rfl, rfl, rfl⟩
  · omega
  · intro hlt
    exact h5 (by omega)

/-- C6: evaluating `get_ingestion_sources` on a listing whose single
record is a SasToken source *without* an `expiration` field: the
unconditional read of `connectionInfo["expiration"]` raises `KeyError`
before the `"expiration" in connection_info` skip branch can run, so the
call fails instead of returning the empty map the claim (and the source's
own dead skip branch) expects. -/
theorem ingestion_sources_missing_expiration_raises :
    get_ingestion_sources
      [{ id := "source-1", sourceType := "SasToken",
         connectionInfo :=
           { containerUrl := "https://acct.blob.core.windows.net/cont",
             sasToken := "tok", expiration := none } }] =
      .error "KeyError: expiration" := rfl

/-- C8 counterexample: with `now = 0`, `MIN_HOURS = 12` and an existing
source whose expiration is exactly `now + 12` hours (43200 s), the claim
says no update is issued (`expiration` is *at* `now + MIN_HOURS`), but the
code's `>=` comparison issues one PUT. -/
theorem ingestion_source_refresh_counterexample :
    create_or_update_ingestion_source 0 12 24
        (some { id := "source-1", expiration := 43200 })
        "https://acct.blob.core.windows.net/cont" =
      [.update "source-1" "https://acct.blob.core.windows.net/cont" 86400]
    ∧ (43200 : Int) = 0 + 12 * 3600
    ∧ create_or_update_ingestion_source 0 12 24
        (some { id := "source-1", expiration := 43200 })
        "https://acct.blob.core.windows.net/cont" ≠ [] := by
  refine ⟨rfl, by norm_num, ?_⟩
  intro h
  exact absurd (congrArg List.length h) (by decide)

/-- C8 (amended): when an existing ingestion source's expiration is at or
earlier than `now + MIN_HOURS`, exactly one update (PUT) is issued and the
fresh credential expires at `now + DEFAULT_HOURS`; when the expiration is
strictly later than `now + MIN_HOURS`, no catalog mutation is issued and
the source is reused; when no source exists, exactly one create is issued
with the same fresh expiration (defaults: `MIN_HOURS = 12`,
`DEFAULT_HOURS = 24`). -/
theorem ingestion_source_refresh_amended
    (now min_hours default_hours : Int) (s : IngestionSourceState)
    (container_url : String) :
    (create_or_update_ingestion_source now min_hours default_hours none
        container_url =
      [.create container_url (now + default_hours * 3600)])
    ∧ (s.expiration ≤ now + min_hours * 3600 →
        create_or_update_ingestion_source now min_hours default_hours
          (some s) container_url =
          [.update s.id container_url (now + default_hours * 3600)])
    ∧ (now + min_hours * 3600 < s.expiration →
        create_or_update_ingestion_source now min_hours default_hours
          (some s) container_url = [])
    ∧ MIN_SAS_TOKEN_EXPIRATION_HOURS = 12
    ∧ DEFAULT_SAS_TOKEN_EXPIRATION_HOURS = 24 := by
  refine ⟨rfl, ?_, ?_, rfl, rfl⟩
  · intro h
    simp only [create_or_update_ingestion_source, if_pos h]
  · intro h
    simp only [create_or_update_ingestion_source]
    rw [if_neg (by omega)]

/-- Witness for `ingestion_source_refresh_amended`: a source expiring one
hour from now (`MIN_HOURS = 12`) is refreshed by exactly one PUT expiring
24 hours from now. -/
theorem ingestion_source_refresh_amended_witness :
    create_or_update_ingestion_source 0 12 24
        (some { id := "source-1", expiration := 3600 })
        "https://acct.blob.core.windows.net/cont" =
      [.update "source-1" "https://acct.blob.core.windows.net/cont" 86400] :=
  (ingestion_source_refresh_amended 0 12 24
    { id := "source-1", expiration := 3600 }
    "https://acct.blob.core.windows.net/cont").2.1 (by norm_num)

/-- Writing a key makes it readable. -/
theorem lookup_set_key_self (V : Type) (d : List (String × V)) (k : String)
    (v : V) : lookup_key V (set_key V d k v) k = some v := by
  induction d with
  | nil => simp [set_key, lookup_key]
  | cons p rest ih =>
    by_cases h : p.1 = k
    · simp [set_key, h, lookup_key]
    · simp [set_key, h, lookup_key, ih]

/-- Writing one key leaves the other keys unchanged. -/
theorem lookup_set_key_ne (V : Type) (d : List (String × V)) (k1 k2 : String)
    (v : V) (h : k1 ≠ k2) :
    lookup_key V (set_key V d k1 v) k2 = lookup_key V d k2 := by
  induction d with
  | nil => simp [set_key, lookup_key, h]
  | cons p rest ih =>
    by_cases hp : p.1 = k1
    · simp [set_key, hp, lookup_key, h]
    · simp only [set_key, hp, if_neg hp, lookup_key]
      by_cases hq : p.1 = k2
      · simp [hq]
      · simp [hq, ih]

/-- Dict assignment preserves distinctness of the keys. -/
theorem nodup_keys_set_key (V : Type) (d : List (String × V)) (k : String)
    (v : V) (h : (d.map Prod.fst).Nodup) :
    ((set_key V d k v).map Prod.fst).Nodup := by
  induction d with
  | nil => simp [set_key]
  | cons p rest ih =>
    simp only [List.map_cons, List.nodup_cons] at h
    by_cases hp : p.1 = k
    · simpa [set_key, hp, List.nodup_cons] using h
    · have hkeys : ∀ rest : List (String × V),
          ((set_key V rest k v).map Prod.fst) =
            if k ∈ rest.map Prod.fst then rest.map Prod.fst
            else rest.map Prod.fst ++ [k] := by
        intro rest
        induction rest with
        | nil => simp [set_key]
        | cons q tail ihq =>
          by_cases hq : q.1 = k
          · simp [set_key, hq]
          · simp only [set_key, if_neg hq, List.map_cons, ihq]
            by_cases hmem : k ∈ tail.map Prod.fst
            · simp [hmem, Ne.symm hq]
            · simp [hmem, Ne.symm hq]
      simp only [set_key, if_neg hp, List.map_cons, List.nodup_cons, hkeys]
      by_cases hmem : k ∈ rest.map Prod.fst
      · simp only [if_pos hmem]
        exact ⟨h.1, h.2⟩
      · simp only [if_neg hmem]
        refine ⟨?_, ?_⟩
        · simp only [List.mem_append, List.mem_singleton]
          rintro (hin | rfl)
          · exact h.1 hin
          · exact hp rfl
        · have := ih h.2
          rw [hkeys rest, if_neg hmem] at this
          exact this

/-- If `step` writes the instance field selected by `sel` as a dict
assignment, folding it over pairs with distinct keys yields a lookup hit
for any pair present. -/
theorem init_fold_lookup (V : Type)
    (step : GlobalRegistries V → EnvironmentState V → String → V →
      GlobalRegistries V × EnvironmentState V)
    (sel : EnvironmentState V → List (String × V))
    (hstep : ∀ g e k v, sel (step g e k v).2 = set_key V (sel e) k v)
    (pairs : List (String × V)) (k : String) (v : V) :
    ∀ st : GlobalRegistries V × EnvironmentState V,
    (pairs.map Prod.fst).Nodup →
    lookup_key V pairs k = some v →
    lookup_key V (sel (init_fold V step pairs st).2) k = some v := by
  induction pairs with
  | nil => intro st _ hfound; simp [lookup_key] at hfound
  | cons p rest ih =>
    intro st hnd hfound
    simp only [List.map_cons, List.nodup_cons] at hnd
    simp only [lookup_key] at hfound
    by_cases hp : p.1 = k
    · rw [if_pos hp] at hfound
      cases hfound
      simp only [init_fold]
      have hnot : ∀ (pairs2 : List (String × V)) st2, k ∉ pairs2.map Prod.fst →
          lookup_key V (sel (init_fold V step pairs2 st2).2) k =
            lookup_key V (sel st2.2) k := by
        intro pairs2
        induction pairs2 with
        | nil => intro st2 _; simp [init_fold]
        | cons q tail ihq =>
          intro st2 hq
          simp only [List.map_cons, List.mem_cons, not_or] at hq
          simp only [init_fold]
          rw [ihq _ hq.2, hstep, lookup_set_key_ne V _ _ _ _ (Ne.symm hq.1)]
      rw [hnot rest _ (hp ▸ hnd.1), hstep, hp, lookup_set_key_self]
    · rw [if_neg hp] at hfound
      simp only [init_fold]
      exact ih _ hnd.2 hfound

/-- Folding a step that does not write the field selected by `sel` leaves
that field unchanged. -/
theorem init_fold_preserves (V : Type)
    (step : GlobalRegistries V → EnvironmentState V → String → V →
      GlobalRegistries V × EnvironmentState V)
    (sel : EnvironmentState V → List (String × V))
    (hstep : ∀ g e k v, sel (step g e k v).2 = sel e)
    (pairs : List (String × V)) :
    ∀ st : GlobalRegistries V × EnvironmentState V,
    sel (init_fold V step pairs st).2 = sel st.2 := by
  induction pairs with
  | nil => intro st; simp [init_fold]
  | cons p rest ih =>
    intro st
    simp only [init_fold]
    rw [ih, hstep]

/-- Folding a dict-writing step over pairs that never mention key `k`
leaves the lookup of `k` in the selected field unchanged. -/
theorem init_fold_lookup_of_not_mem (V : Type)
    (step : GlobalRegistries V → EnvironmentState V → String → V →
      GlobalRegistries V × EnvironmentState V)
    (sel : EnvironmentState V → List (String × V))
    (hstep : ∀ g e k v, sel (step g e k v).2 = set_key V (sel e) k v)
    (pairs : List (String × V)) (k : String) :
    ∀ st : GlobalRegistries V × EnvironmentState V,
    k ∉ pairs.map Prod.fst →
    lookup_key V (sel (init_fold V step pairs st).2) k =
      lookup_key V (sel st.2) k := by
  induction pairs with
  | nil => intro st _; simp [init_fold]
  | cons q tail ihq =>
    intro st hq
    simp only [List.map_cons, List.mem_cons, not_or] at hq
    simp only [init_fold]
    rw [ihq _ hq.2, hstep, lookup_set_key_ne V _ _ _ _ (Ne.symm hq.1)]

/-- The function-injection loop leaves instance filters unchanged. -/
theorem fold_fun_filters (V : Type) (pairs : List (String × V))
    (st : GlobalRegistries V × EnvironmentState V) :
    (init_fold V (add_function V) pairs st).2.filters = st.2.filters :=
  init_fold_preserves V (add_function V) (fun e2 => e2.filters)
    (fun _ _ _ _ => rfl) pairs st

/-- The test-injection loop leaves instance filters unchanged. -/
theorem fold_tst_filters (V : Type) (pairs : List (String × V))
    (st : GlobalRegistries V × EnvironmentState V) :
    (init_fold V (add_test V) pairs st).2.filters = st.2.filters :=
  init_fold_preserves V (add_test V) (fun e2 => e2.filters)
    (fun _ _ _ _ => rfl) pairs st

/-- The global-variable-injection loop leaves instance filters
unchanged. -/
theorem fold_glb_filters (V : Type) (pairs : List (String × V))
    (st : GlobalRegistries V × EnvironmentState V) :
    (init_fold V (add_global_variable V) pairs st).2.filters =
      st.2.filters :=
  init_fold_preserves V (add_global_variable V) (fun e2 => e2.filters)
    (fun _ _ _ _ => rfl) pairs st

/-- The global-variable-injection loop leaves instance tests unchanged. -/
theorem fold_glb_tests (V : Type) (pairs : List (String × V))
    (st : GlobalRegistries V × EnvironmentState V) :
    (init_fold V (add_global_variable V) pairs st).2.tests = st.2.tests :=
  init_fold_preserves V (add_global_variable V) (fun e2 => e2.tests)
    (fun _ _ _ _ => rfl) pairs st

/-- The test-injection loop leaves instance jinja globals unchanged. -/
theorem fold_tst_globals (V : Type) (pairs : List (String × V))
    (st : GlobalRegistries V × EnvironmentState V) :
    (init_fold V (add_test V) pairs st).2.globals = st.2.globals :=
  init_fold_preserves V (add_test V) (fun e2 => e2.globals)
    (fun _ _ _ _ => rfl) pairs st

/-- The global-variable-injection loop over pairs that never mention `k`
leaves the lookup of `k` in the instance jinja globals unchanged. -/
theorem fold_glb_globals_not_mem (V : Type) (pairs : List (String × V))
    (k : String) (st : GlobalRegistries V × EnvironmentState V)
    (h : k ∉ pairs.map Prod.fst) :
    lookup_key V (init_fold V (add_global_variable V) pairs st).2.globals k =
      lookup_key V st.2.globals k :=
  init_fold_lookup_of_not_mem V (add_global_variable V) (fun e2 => e2.globals)
    (fun _ _ _ _ => rfl) pairs k st h

/-- C10: registering a filter, function, test or global variable on one
`Environment` writes the process-wide registry as well as that instance,
so an `Environment` constructed afterwards (from the mutated registries)
also contains the newly registered callable under the same name.  The
`Nodup` hypotheses state that the registries are genuine dicts (no
duplicate keys); the `hclash` hypothesis for the function case reflects
that the jinja `globals` dict is shared between functions and global
variables, so a same-named global variable registered later would shadow
the function there. -/
theorem registration_is_process_wide (V : Type) (g : GlobalRegistries V)
    (e : EnvironmentState V) (name : String) (f : V)
    (hfil : (g.filters.map Prod.fst).Nodup)
    (hfun : (g.functions.map Prod.fst).Nodup)
    (htst : (g.tests.map Prod.fst).Nodup)
    (hglb : (g.globals.map Prod.fst).Nodup)
    (hclash : name ∉ g.globals.map Prod.fst) :
    (lookup_key V (add_filter V g e name f).2.filters name = some f ∧
     lookup_key V
       (environment_init V (add_filter V g e name f).1).2.filters name =
       some f)
    ∧ (lookup_key V (add_function V g e name f).2.globals name = some f ∧
       lookup_key V
         (environment_init V (add_function V g e name f).1).2.globals name =
         some f)
    ∧ (lookup_key V (add_test V g e name f).2.tests name = some f ∧
       lookup_key V
         (environment_init V (add_test V g e name f).1).2.tests name =
         some f)
    ∧ (lookup_key V (add_global_variable V g e name f).2.globals name =
         some f ∧
       lookup_key V
         (environment_init V
           (add_global_variable V g e name f).1).2.globals name =
         some f) := by
  have hstep_fil : ∀ g2 e2 k v,
      ((add_filter V g2 e2 k v).2).filters = set_key V e2.filters k v :=
    fun _ _ _ _ => rfl
  have hstep_fun : ∀ g2 e2 k v,
      ((add_function V g2 e2 k v).2).globals = set_key V e2.globals k v :=
    fun _ _ _ _ => rfl
  have hstep_tst : ∀ g2 e2 k v,
      ((add_test V g2 e2 k v).2).tests = set_key V e2.tests k v :=
    fun _ _ _ _ => rfl
  have hstep_glb : ∀ g2 e2 k v,
      ((add_global_variable V g2 e2 k v).2).globals = set_key V e2.globals k v :=
    fun _ _ _ _ => rfl
  refine ⟨⟨lookup_set_key_self V _ _ _, ?_⟩,
          ⟨lookup_set_key_self V _ _ _, ?_⟩,
          ⟨lookup_set_key_self V _ _ _, ?_⟩,
          ⟨lookup_set_key_self V _ _ _, ?_⟩⟩
  · simp only [environment_init]
    rw [fold_glb_filters, fold_tst_filters, fold_fun_filters]
    exact init_fold_lookup V (add_filter V) (fun e2 => e2.filters)
      hstep_fil _ name f _
      (nodup_keys_set_key V _ _ _ hfil) (lookup_set_key_self V _ _ _)
  · simp only [environment_init, add_function]
    rw [fold_glb_globals_not_mem V _ _ _ hclash, fold_tst_globals]
    exact init_fold_lookup V (add_function V) (fun e2 => e2.globals)
      hstep_fun _ name f _
      (nodup_keys_set_key V _ _ _ hfun) (lookup_set_key_self V _ _ _)
  · simp only [environment_init]
    rw [fold_glb_tests]
    exact init_fold_lookup V (add_test V) (fun e2 => e2.tests)
      hstep_tst _ name f _
      (nodup_keys_set_key V _ _ _ htst) (lookup_set_key_self V _ _ _)
  · simp only [environment_init]
    exact init_fold_lookup V (add_global_variable V) (fun e2 => e2.globals)
      hstep_glb _ name f _
      (nodup_keys_set_key V _ _ _ hglb) (lookup_set_key_self V _ _ _)

/-- Witness for `registration_is_process_wide`: registering the value `7`
under `"shape"` on an environment over empty registries makes it visible
in the instance and in a freshly constructed environment, for all four
registration kinds. -/
theorem registration_is_process_wide_witness :
    lookup_key Nat
      (environment_init Nat
        (add_filter Nat ⟨[], [], [], []⟩ ⟨[], [], []⟩ "shape" 7).1).2.filters
      "shape" = some 7 :=
  (registration_is_process_wide Nat ⟨[], [], [], []⟩ ⟨[], [], []⟩ "shape" 7
    (by decide) (by decide) (by decide) (by decide) (by decide)).1.2

/-- A pattern fragment with no `*` or `?` matches character by
character. -/
def no_wildcards (ps : List Char) : Bool :=
  ps.all fun c => !(c == '*') && !(c == '?')

/-- Python `os.path.basename`: the final path segment of a blob name. -/
def basename (s : List Char) : List Char :=
  (s.reverse.takeWhile fun c => !(c == '/')).reverse

/-- The boolean `starts_with` agrees with list-prefix. -/
theorem starts_with_iff (s p : List Char) :
    starts_with s p = true ↔ p <+: s := by
  induction p generalizing s with
  | nil => simp [starts_with]
  | cons c cs ih =>
    cases s with
    | nil => simp [starts_with]
    | cons b bs =>
      simp [starts_with, List.cons_prefix_cons, ih, eq_comm (a := c) (b := b),
        Bool.and_eq_true, beq_iff_eq]

/-- The boolean `ends_with` agrees with list-suffix. -/
theorem ends_with_iff (s t : List Char) :
    ends_with s t = true ↔ t <:+ s := by
  rw [ends_with, starts_with_iff, List.reverse_prefix]

/-- A leading `*` matches exactly when the rest of the pattern matches
some suffix. -/
theorem globMatch_star_iff (ps cs : List Char) :
    globMatch ('*' :: ps) cs = true ↔
      ∃ t, t <:+ cs ∧ globMatch ps t = true := by
  have hdef : globMatch ('*' :: ps) cs = cs.tails.any fun t => globMatch ps t := by
    simp [globMatch]
  rw [hdef, List.any_eq_true]
  constructor
  · rintro ⟨t, ht, hm⟩
    exact ⟨t, (List.mem_tails t cs).mp ht, hm⟩
  · rintro ⟨t, ht, hm⟩
    exact ⟨t, (List.mem_tails t cs).mpr ht, hm⟩

/-- A wildcard-free pattern matches only itself. -/
theorem globMatch_literal (ps : List Char) (h : no_wildcards ps = true) :
    ∀ cs, globMatch ps cs = true ↔ cs = ps := by
  induction ps with
  | nil =>
    intro cs
    cases cs <;> simp [globMatch]
  | cons p ps ih =>
    intro cs
    simp only [no_wildcards, List.all_cons, Bool.and_eq_true, Bool.not_eq_true',
      beq_eq_false_iff_ne, ne_eq] at h
    have hstar : ¬p = '*' := h.1.1
    have hq : ¬p = '?' := h.1.2
    have ih2 := ih (by simpa [no_wildcards] using h.2)
    cases cs with
    | nil => simp [globMatch, hstar]
    | cons c cs' =>
      simp [globMatch, hstar, hq, ih2, Bool.and_eq_true, beq_iff_eq,
        eq_comm (a := p) (b := c)]

/-- A `*` followed by a wildcard-free tail matches exactly the strings
with that tail as a suffix. -/
theorem globMatch_star_literal (lit : List Char)
    (h : no_wildcards lit = true) (cs : List Char) :
    globMatch ('*' :: lit) cs = true ↔ lit <:+ cs := by
  rw [globMatch_star_iff]
  constructor
  · rintro ⟨t, ht, hm⟩
    rw [globMatch_literal lit h t] at hm
    exact hm ▸ ht
  · intro ht
    exact ⟨lit, ht, (globMatch_literal lit h lit).mpr rfl⟩

/-- A leading literal character must be consumed from the text. -/
theorem globMatch_cons_literal (p : Char) (ps cs : List Char)
    (hstar : p ≠ '*') (hq : p ≠ '?') :
    globMatch (p :: ps) cs = true ↔
      ∃ cs', cs = p :: cs' ∧ globMatch ps cs' = true := by
  cases cs with
  | nil => simp [globMatch, hstar]
  | cons c cs' =>
    simp only [globMatch, if_neg hstar, if_neg hq, Bool.and_eq_true,
      beq_iff_eq, List.cons.injEq]
    constructor
    · rintro ⟨rfl, h2⟩
      exact ⟨cs', ⟨rfl, rfl⟩, h2⟩
    · rintro ⟨cs2, ⟨rfl, rfl⟩, h2⟩
      exact ⟨rfl, h2⟩

/-- The translated glob `**/*.tif` matches exactly the names that contain
a path separator and end in `.tif`: `fnmatch`-style `*` also matches `/`,
so the leading `**/` requires some `/` anywhere, and `*.tif` requires the
suffix `.tif`. -/
theorem globMatch_tif (cs : List Char) :
    globMatch "**/*.tif".toList cs = true ↔
      '/' ∈ cs ∧ ".tif".toList <:+ cs := by
  have htif : no_wildcards ".tif".toList = true := by decide
  have step : globMatch "**/*.tif".toList cs = true ↔
      ∃ t, ('/' :: t) <:+ cs ∧ ".tif".toList <:+ t := by
    show globMatch ('*' :: "*/*.tif".toList) cs = true ↔ _
    rw [globMatch_star_iff]
    constructor
    · rintro ⟨t, ht, hm⟩
      rw [show ("*/*.tif".toList : List Char) = '*' :: "/*.tif".toList from rfl,
        globMatch_star_iff] at hm
      obtain ⟨u, hu, hm2⟩ := hm
      rw [show ("/*.tif".toList : List Char) = '/' :: "*.tif".toList from rfl,
        globMatch_cons_literal '/' _ _ (by decide) (by decide)] at hm2
      obtain ⟨v, rfl, hm3⟩ := hm2
      rw [show ("*.tif".toList : List Char) = '*' :: ".tif".toList from rfl,
        globMatch_star_literal _ htif] at hm3
      exact ⟨v, (hu.trans ht), hm3⟩
    · rintro ⟨t, ht, hsuf⟩
      refine ⟨'/' :: t, ht, ?_⟩
      rw [show ("*/*.tif".toList : List Char) = '*' :: "/*.tif".toList from rfl,
        globMatch_star_iff]
      refine ⟨'/' :: t, List.suffix_refl _, ?_⟩
      rw [show ("/*.tif".toList : List Char) = '/' :: "*.tif".toList from rfl,
        globMatch_cons_literal '/' _ _ (by decide) (by decide)]
      refine ⟨t, rfl, ?_⟩
      rw [show ("*.tif".toList : List Char) = '*' :: ".tif".toList from rfl,
        globMatch_star_literal _ htif]
      exact hsuf
  rw [step]
  constructor
  · rintro ⟨t, ht, hsuf⟩
    refine ⟨ht.mem (List.mem_cons_self '/' t), ?_⟩
    exact (hsuf.trans (List.suffix_cons '/' t)).trans ht
  · rintro ⟨hmem, hsuf⟩
    obtain ⟨s, t, rfl⟩ := List.append_of_mem hmem
    have hslash : ('/' :: t) <:+ s ++ '/' :: t := List.suffix_append s _
    rcases List.suffix_or_suffix_of_suffix hsuf hslash with h1 | h2
    · rcases List.suffix_cons_iff.mp h1 with heq | h3
      · exfalso
        have : '/' ∈ (".tif".toList : List Char) := by
          rw [heq]
          exact List.mem_cons_self '/' t
        simp at this
      · exact ⟨t, hslash, h3⟩
    · exfalso
      have : '/' ∈ (".tif".toList : List Char) :=
        h2.mem (List.mem_cons_self '/' t)
      simp at this

/-- The translated glob `L2A_*.json` forces the literal prefix `L2A_` and
the literal suffix `.json` on the full blob name (the `*` may cross `/`,
so nothing constrains the basename). -/
theorem globMatch_L2A (cs : List Char)
    (h : globMatch "L2A_*.json".toList cs = true) :
    starts_with cs "L2A_".toList = true ∧
      ends_with cs ".json".toList = true := by
  rw [show ("L2A_*.json".toList : List Char) =
      'L' :: '2' :: 'A' :: '_' :: '*' :: ".json".toList from rfl] at h
  rw [globMatch_cons_literal _ _ _ (by decide) (by decide)] at h
  obtain ⟨c1, rfl, h⟩ := h
  rw [globMatch_cons_literal _ _ _ (by decide) (by decide)] at h
  obtain ⟨c2, rfl, h⟩ := h
  rw [globMatch_cons_literal _ _ _ (by decide) (by decide)] at h
  obtain ⟨c3, rfl, h⟩ := h
  rw [globMatch_cons_literal _ _ _ (by decide) (by decide)] at h
  obtain ⟨c4, rfl, h⟩ := h
  rw [globMatch_star_literal _ (by decide)] at h
  constructor
  · rw [starts_with_iff]
    exact ⟨c4, rfl⟩
  · rw [ends_with_iff]
    refine h.trans ?_
    exact (List.suffix_cons '_' c4).trans ((List.suffix_cons 'A' _).trans
      ((List.suffix_cons '2' _).trans (List.suffix_cons 'L' _)))

/-- C5 counterexample: `fnmatch` globs are not path-aware.  A container
with the single top-level blob `a.tif` yields an empty listing for
`**/*.tif` although the name ends `.tif` (the translated regex demands a
`/`), and `L2A_*.json` returns the blob `L2A_d/y.json` although its
basename `y.json` does not begin `L2A_` (the `*` crosses the `/`). -/
theorem glob_correctness_counterexample :
    (list_blobs "https://acct.example/c".toList ["a.tif".toList] none
        (some "**/*.tif".toList) = [] ∧
      ends_with "a.tif".toList ".tif".toList = true)
    ∧ (list_blobs "https://acct.example/c".toList ["L2A_d/y.json".toList]
        none (some "L2A_*.json".toList) =
        ["https://acct.example/c/L2A_d/y.json".toList] ∧
      basename "L2A_d/y.json".toList = "y.json".toList ∧
      starts_with (basename "L2A_d/y.json".toList) "L2A_".toList = false) := by
  decide

/-- C5 (amended): after prefix filtering, the glob is applied to the full
blob name via its regex translation, under which `*` also matches `/`:
`list` with pattern `**/*.tif` returns exactly the blobs whose name
contains a `/` and ends `.tif` (one URL per blob, in enumeration order),
and `list` with pattern `L2A_*.json` returns only blobs whose full name
begins `L2A_` and ends `.json` — the basename need not begin `L2A_`. -/
theorem glob_correctness_amended (container_url : List Char)
    (blobs : List (List Char)) :
    (list_blobs container_url blobs none (some "**/*.tif".toList) =
      (blobs.filter fun b =>
          decide ('/' ∈ b) && ends_with b ".tif".toList).map
        fun b => container_url ++ '/' :: b)
    ∧ (∀ u ∈ list_blobs container_url blobs none (some "L2A_*.json".toList),
        ∃ b, b ∈ blobs ∧ u = container_url ++ '/' :: b ∧
          starts_with b "L2A_".toList = true ∧
          ends_with b ".json".toList = true) := by
  constructor
  · unfold list_blobs
    congr 1
    apply List.filter_congr
    intro b _
    rw [Bool.eq_iff_iff]
    simp only [list_blobs_keep, Bool.true_and, Bool.and_eq_true,
      decide_eq_true_eq]
    rw [globMatch_tif, ends_with_iff]
  · intro u hu
    unfold list_blobs at hu
    rw [List.mem_map] at hu
    obtain ⟨b, hb, rfl⟩ := hu
    rw [List.mem_filter] at hb
    obtain ⟨hmem, hkeep⟩ := hb
    simp only [list_blobs_keep, Bool.true_and] at hkeep
    obtain ⟨h1, h2⟩ := globMatch_L2A b hkeep
    exact ⟨b, hmem, rfl, h1, h2⟩

/-- Witness for `glob_correctness_amended` on a three-blob container. -/
theorem glob_correctness_amended_witness :
    list_blobs "https://acct.example/c".toList
      ["d/a.tif".toList, "a.tif".toList, "d/x.json".toList] none
      (some "**/*.tif".toList) =
      ["https://acct.example/c/d/a.tif".toList] := by
  rw [(glob_correctness_amended "https://acct.example/c".toList
    ["d/a.tif".toList, "a.tif".toList, "d/x.json".toList]).1]
  decide

/-- Every blob uploaded by this run's fan-out passes both filters of the
collection build's listing: its name starts with the
`<instance_id>/items` prefix and matches the `*.json` glob. -/
theorem run_uploads_keep (instance_id : List Char)
    (results : List (List Char × Bool)) :
    ∀ n ∈ run_uploads instance_id results,
      list_blobs_keep (some (instance_id ++ "/items".toList))
        (some "*.json".toList) n = true := by
  intro n hn
  simp only [run_uploads, List.mem_map, List.mem_filter] at hn
  obtain ⟨r, ⟨hres, hflag⟩, rfl⟩ := hn
  simp only [list_blobs_keep, Bool.and_eq_true]
  constructor
  · rw [starts_with_iff]
    refine ⟨'/' :: (r.1 ++ ".json".toList), ?_⟩
    simp only [item_blob_name, List.append_assoc]
    rfl
  · rw [show ("*.json".toList : List Char) = '*' :: ".json".toList from rfl,
      globMatch_star_literal _ (by decide)]
    simp only [item_blob_name, List.append_assoc]
    exact (List.suffix_append r.1 _).trans
      ((List.suffix_append "/items/".toList _).trans
        (List.suffix_append instance_id _))

/-- C7: when the export container's enumeration `store` holds exactly the
blobs uploaded by this run's successful transforms (in any service order),
the built collection has exactly one `rel="item"` link per successful
transform (so the `rel="item"` link count equals `successCount`), every
link is an `application/json` item link whose URL is
`<container>/<instance_id>/items/<invocation_id>.json` for a successful
invocation of this run, and the links appear in the enumeration order of
the listing — not sorted by scene id or time. -/
theorem collection_links_spec (container_url instance_id : List Char)
    (results : List (List Char × Bool)) (store : List (List Char))
    (hperm : store.Perm (run_uploads instance_id results)) :
    ((create_collection container_url store instance_id).1.links.filter
        fun l => l.rel == "item").length =
      (results.filter fun r => r.2).length
    ∧ (∀ l ∈ (create_collection container_url store instance_id).1.links,
        l.rel = "item" ∧ l.type = "application/json" ∧
          ∃ inv, (inv, true) ∈ results ∧
            l.href = container_url ++ '/' :: item_blob_name instance_id inv)
    ∧ (create_collection container_url store instance_id).1.links.map
        CollectionLink.href =
      store.map fun n => container_url ++ '/' :: n := by
  have hkeep : ∀ n ∈ store,
      list_blobs_keep (some (instance_id ++ "/items".toList))
        (some "*.json".toList) n = true :=
    fun n hn => run_uploads_keep instance_id results n (hperm.subset hn)
  have hlist : list_blobs container_url store
      (some (instance_id ++ "/items".toList)) (some "*.json".toList) =
      store.map fun n => container_url ++ '/' :: n := by
    unfold list_blobs
    rw [List.filter_eq_self.mpr hkeep]
  have hlinks : (create_collection container_url store instance_id).1.links =
      (store.map fun n => container_url ++ '/' :: n).map fun u =>
        { rel := "item", href := u, type := "application/json" } := by
    simp only [create_collection]
    rw [hlist]
  refine ⟨?_, ?_, ?_⟩
  · rw [hlinks, List.filter_eq_self.mpr (by
      intro l hl
      simp only [List.mem_map] at hl
      obtain ⟨u, _, rfl⟩ := hl
      rfl)]
    simp only [List.length_map, hperm.length_eq, run_uploads]
  · intro l hl
    rw [hlinks] at hl
    simp only [List.mem_map] at hl
    obtain ⟨n, hn, rfl⟩ := hl
    obtain ⟨u, hu, rfl⟩ := hn
    have hup := hperm.subset hu
    simp only [run_uploads, List.mem_map, List.mem_filter] at hup
    obtain ⟨r, ⟨hres, hflag⟩, rfl⟩ := hup
    refine ⟨rfl, rfl, r.1, ?_, rfl⟩
    have : r = (r.1, true) := by
      cases r with
      | mk a b =>
        cases b with
        | false => simp at hflag
        | true => rfl
    rw [← this]
    exact hres
  · rw [hlinks, List.map_map, List.map_map]
    rfl

/-- Witness for `collection_links_spec`: a run with one successful and one
failed transform lists one stored item blob and links exactly it. -/
theorem collection_links_spec_witness :
    (create_collection "https://out.example/c".toList
      ["inst/items/inv1.json".toList] "inst".toList).1.links.map
      CollectionLink.href =
      ["https://out.example/c/inst/items/inv1.json".toList] := by
  rw [(collection_links_spec "https://out.example/c".toList "inst".toList
    [("inv1".toList, true), ("inv2".toList, false)]
    ["inst/items/inv1.json".toList] (by decide)).2.2]
  decide

/-- Spec-side drop predicate of the index crawler: a line is dropped
exactly when the ignore prefix is configured, non-empty, and the line
starts with it. -/
def dropped_line (ignore : Option (List Char)) (line : List Char) : Bool :=
  match ignore with
  | some p => !p.isEmpty && starts_with line p
  | none => false

/-- The crawler's nested ignore-prefix conditional filters exactly the
dropped lines. -/
theorem ignore_filter_eq (ignore : Option (List Char))
    (lines : List (List Char)) :
    (match ignore with
     | some p =>
       if p ≠ [] then lines.filter (fun line => !starts_with line p)
       else lines
     | none => lines) =
    lines.filter fun line => !dropped_line ignore line := by
  match ignore with
  | none =>
    simp [dropped_line]
  | some p =>
    have hred : (match some p with
        | some p =>
          if p ≠ [] then lines.filter (fun line => !starts_with line p)
          else lines
        | none => lines) =
        if p ≠ [] then lines.filter (fun line => !starts_with line p)
        else lines := rfl
    rw [hred]
    by_cases hp : p = []
    · subst hp
      simp [dropped_line]
    · rw [if_pos hp]
      simp only [dropped_line]
      apply List.filter_congr
      intro line _
      have : p.isEmpty = false := by
        cases p with
        | nil => exact absurd rfl hp
        | cons a as => rfl
      rw [this]
      simp

/-- A line the parser rejects aborts the whole NDJSON comprehension. -/
theorem parse_all_none_of_mem (J : Type) (parse_json : List Char → Option J) :
    ∀ ls l, l ∈ ls → parse_json l = none →
      parse_all J parse_json ls = none := by
  intro ls
  induction ls with
  | nil => intro l h; simp at h
  | cons a as ih =>
    intro l h hfail
    rcases List.mem_cons.mp h with rfl | hmem
    · simp [parse_all, hfail]
    · simp only [parse_all]
      cases parse_json a with
      | none => rfl
      | some j => rw [ih l hmem hfail]

/-- C9: the index crawler fails with `CrawlingError "Error crawling index"`
when the download fails; otherwise it splits the decoded text into lines,
drops a line exactly when the ignore prefix is set, non-empty and the line
starts with it, and returns the remaining raw lines (`is_ndjson = false`)
or their parses (`is_ndjson = true`); a line the JSON parser rejects also
raises `CrawlingError "Error crawling index"`. -/
theorem index_crawler_contract (J : Type) (e : String) (bytes : List Char)
    (is_ndjson : Bool) (ignore : Option (List Char))
    (parse_json : List Char → Option J) :
    (index_crawler J (.error e) is_ndjson ignore parse_json =
      .error "Error crawling index")
    ∧ (index_crawler J (.ok bytes) false ignore parse_json =
        .ok (.inl ((py_splitlines bytes).filter fun line =>
          !dropped_line ignore line)))
    ∧ (∀ js, parse_all J parse_json
          ((py_splitlines bytes).filter fun line =>
            !dropped_line ignore line) = some js →
        index_crawler J (.ok bytes) true ignore parse_json = .ok (.inr js))
    ∧ ((∃ l ∈ (py_splitlines bytes).filter
          (fun line => !dropped_line ignore line), parse_json l = none) →
        index_crawler J (.ok bytes) true ignore parse_json =
          .error "Error crawling index") := by
  refine ⟨rfl, ?_, ?_, ?_⟩
  · simp only [index_crawler]
    rw [ignore_filter_eq]
    simp
  · intro js h
    simp only [index_crawler]
    rw [ignore_filter_eq, h]
    simp
  · rintro ⟨l, hmem, hfail⟩
    simp only [index_crawler]
    rw [ignore_filter_eq, parse_all_none_of_mem J parse_json _ l hmem hfail]
    simp

/-- Witness for `index_crawler_contract`: an NDJSON index whose comment
line is dropped and whose two remaining lines parse (here the abstract
parser returns line lengths). -/
theorem index_crawler_contract_witness :
    index_crawler Nat (.ok "# header\nalpha\nbeta".toList) true
      (some "#".toList) (fun l => some l.length) = .ok (.inr [5, 4]) :=
  (index_crawler_contract Nat "" "# header\nalpha\nbeta".toList true
    (some "#".toList) (fun l => some l.length)).2.2.1 [5, 4] (by decide)

end Stacforge
